import Mathlib

/-!
Shallow embedding of the photon-mapping core of this repository:
`src/include/integrator.h` (class `PhotonMapping`: `build`, `integrate`)
and `src/include/primitive.h` (class `Primitive`).

Machine floats (`float`, `Vec3f`) are modelled by exact rationals; the
collaborator interfaces that the two headers consume (`Scene`, `Light`,
`Sampler`, `BxDF`, the frame transforms of core.h and the `Photon`
record of photon_map.h, none of which are under src/) are modelled from
the spec at their interface boundary, as marked on each definition.
-/

/-- `std::min` on rationals (executable; agrees with Mathlib `min`). -/
def rmin (a b : ℚ) : ℚ := if a ≤ b then a else b

/-- `std::max` on rationals (executable; agrees with Mathlib `max`). -/
def rmax (a b : ℚ) : ℚ := if a ≤ b then b else a

/-- `std::abs` on rationals (executable; agrees with Mathlib `abs`). -/
def rabs (a : ℚ) : ℚ := if a ≤ 0 then -a else a

theorem rmin_eq_min (a b : ℚ) : rmin a b = min a b := (min_def a b).symm

theorem rmax_eq_max (a b : ℚ) : rmax a b = max a b := (max_def a b).symm

theorem rabs_eq_abs (a : ℚ) : rabs a = |a| := by
  unfold rabs
  by_cases h : a ≤ 0
  · simp [h, abs_of_nonpos h]
  · simp [h, abs_of_pos (not_le.mp h)]

/-- Model of `Vec3f`: an RGB colour / 3d point / direction with exact
rational components in place of IEEE floats. -/
structure Vec3 where
  x : ℚ
  y : ℚ
  z : ℚ
  deriving DecidableEq, Repr

namespace Vec3

/-- Componentwise product, `Vec3 * Vec3` of the C++ vector class. -/
def cmul (a b : Vec3) : Vec3 := ⟨a.x * b.x, a.y * b.y, a.z * b.z⟩

/-- Scalar product, `Vec3 * float` of the C++ vector class. -/
def smul (a : Vec3) (t : ℚ) : Vec3 := ⟨a.x * t, a.y * t, a.z * t⟩

/-- Scalar division, `Vec3 / float` of the C++ vector class. -/
def sdiv (a : Vec3) (t : ℚ) : Vec3 := ⟨a.x / t, a.y / t, a.z / t⟩

/-- Negation, `-Vec3` of the C++ vector class. -/
def neg (a : Vec3) : Vec3 := ⟨-a.x, -a.y, -a.z⟩

/-- Dot product `dot(a, b)`. -/
def dot (a b : Vec3) : ℚ := a.x * b.x + a.y * b.y + a.z * b.z

/-- `std::max(t[0], std::max(t[1], t[2]))` from the russian-roulette code. -/
def vmax (a : Vec3) : ℚ := rmax a.x (rmax a.y a.z)

/-- All three components are non-negative. -/
def nonneg (a : Vec3) : Prop := 0 ≤ a.x ∧ 0 ≤ a.y ∧ 0 ≤ a.z

instance (a : Vec3) : Decidable a.nonneg := by unfold nonneg; infer_instance

end Vec3

/-- Modelled from the spec: the `Sampler` interface (spec section 6) supplies a
stream of uniform samples via `getNext1D`; modelled as an infinite sequence of
rationals with a cursor. -/
structure Sampler where
  seq : Nat → ℚ
  pos : Nat

/-- `sampler.getNext1D()`: return the next stream value and advance. -/
def Sampler.getNext1D (s : Sampler) : ℚ × Sampler :=
  (s.seq s.pos, ⟨s.seq, s.pos + 1⟩)

/-- Modelled from the spec: `BxDFType` (material.h is not under src/) is a
closed enumeration distinguishing at least DIFFUSE from other reflectance
classes; only the DIFFUSE test matters to the photon tracer. -/
inductive BxDFType where
  | DIFFUSE
  | SPECULAR
  deriving DecidableEq, Repr

/-- `SurfaceInfo`: hit position plus the local tangent frame
`(dpdu, normal, dpdv)` (spec section 3; consumed by primitive.h). -/
structure SurfaceInfo where
  position : Vec3
  normal : Vec3
  dpdu : Vec3
  dpdv : Vec3
  deriving DecidableEq, Repr

/-- `Ray`: origin and direction, re-created each bounce. -/
structure Ray where
  origin : Vec3
  direction : Vec3
  deriving DecidableEq, Repr

/-- Modelled from the spec: the `Photon` record of photon_map.h (not under
src/): power, position and incoming direction, as constructed by
`Photon(throughput, info.surfaceInfo.position, -ray.direction)` in
integrator.h. -/
structure Photon where
  power : Vec3
  position : Vec3
  wi : Vec3
  deriving DecidableEq, Repr

/-- Modelled from the spec: `worldToLocal(v, lx, ly, lz)` of core.h (not under
src/) expresses a world direction in the orthonormal-ish frame given by the
three basis vectors, i.e. takes the dot product with each basis vector. -/
def worldToLocal (v lx ly lz : Vec3) : Vec3 :=
  ⟨Vec3.dot v lx, Vec3.dot v ly, Vec3.dot v lz⟩

/-- Modelled from the spec: `localToWorld(v, lx, ly, lz)` of core.h (not under
src/) is the inverse transform: the linear combination of the frame vectors
with the local coordinates. -/
def localToWorld (v lx ly lz : Vec3) : Vec3 :=
  ⟨v.x * lx.x + v.y * ly.x + v.z * lz.x,
   v.x * lx.y + v.y * ly.y + v.z * lz.y,
   v.x * lx.z + v.y * ly.z + v.z * lz.z⟩

/-- Result of `BxDF::sampleDirection` (out-parameters turned into fields):
BSDF value `f`, sampled local direction `wi`, its density `pdf`, and the
advanced sampler. -/
structure BxDFSample where
  f : Vec3
  wi : Vec3
  pdf : ℚ
  sampler : Sampler

/-- Modelled from the spec: the `BxDF` interface of material.h (not under
src/), spec section 6: evaluation, importance sampling, the finite
all-directions enumeration (weight modelled as an RGB vector) and the
classification tag. -/
structure BxDF where
  evaluate : Vec3 → Vec3 → Vec3
  sampleDirection : Vec3 → Sampler → BxDFSample
  sampleAllDirection : Vec3 → List (Vec3 × Vec3)
  getType : BxDFType

/-- Modelled from the spec: the `Light` interface (light.h is not under src/),
spec section 6: point sampling, direction sampling and emitted radiance. -/
structure Light where
  samplePointSurf : Sampler → SurfaceInfo
  samplePointPdf : Sampler → ℚ
  samplePointSampler : Sampler → Sampler
  sampleDirectionDir : SurfaceInfo → Sampler → Vec3
  sampleDirectionPdf : SurfaceInfo → Sampler → ℚ
  sampleDirectionSampler : SurfaceInfo → Sampler → Sampler
  Le : SurfaceInfo → Vec3 → Vec3

/-- `Primitive` of primitive.h: a BxDF plus an optional area light.  The
geometry pointer is irrelevant to the shading contract and omitted. -/
structure Primitive where
  bxdf : BxDF
  areaLight : Option Light

namespace Primitive

/-- `Primitive::hasAreaLight`. -/
def hasAreaLight (p : Primitive) : Bool := p.areaLight.isSome

/-- `Primitive::getBxDFType`: delegates to `bxdf->getType()`. -/
def getBxDFType (p : Primitive) : BxDFType := p.bxdf.getType

/-- `Primitive::evaluateBxDF`: transform both directions into the local frame
`(dpdu, normal, dpdv)` and evaluate the BxDF there. -/
def evaluateBxDF (p : Primitive) (wo wi : Vec3) (surfInfo : SurfaceInfo) : Vec3 :=
  let wo_l := worldToLocal wo surfInfo.dpdu surfInfo.normal surfInfo.dpdv
  let wi_l := worldToLocal wi surfInfo.dpdu surfInfo.normal surfInfo.dpdv
  p.bxdf.evaluate wo_l wi_l

/-- `Primitive::sampleBxDF` (called `sampleBRDF` at its use site in
integrator.h): transform `wo` to the local frame, importance-sample a local
direction from the BxDF, and return the sampled direction transformed back to
world space together with the BSDF value and pdf. -/
def sampleBxDF (p : Primitive) (wo : Vec3) (surfInfo : SurfaceInfo)
    (sampler : Sampler) : BxDFSample :=
  let wo_l := worldToLocal wo surfInfo.dpdu surfInfo.normal surfInfo.dpdv
  let smp := p.bxdf.sampleDirection wo_l sampler
  { smp with wi := localToWorld smp.wi surfInfo.dpdu surfInfo.normal surfInfo.dpdv }

/-- `Primitive::sampleAllBxDF`: transform `wo` to the local frame, enumerate
all BxDF directions there, and transform each pair's direction (first
component) back to world space, leaving the weight untouched. -/
def sampleAllBxDF (p : Primitive) (wo : Vec3) (surfInfo : SurfaceInfo) :
    List (Vec3 × Vec3) :=
  let wo_l := worldToLocal wo surfInfo.dpdu surfInfo.normal surfInfo.dpdv
  let dir_pairs := p.bxdf.sampleAllDirection wo_l
  dir_pairs.map (fun dp =>
    (localToWorld dp.1 surfInfo.dpdu surfInfo.normal surfInfo.dpdv, dp.2))

end Primitive

/-- `IntersectInfo`: the hit primitive and its surface data. -/
structure IntersectInfo where
  hitPrimitive : Primitive
  surfaceInfo : SurfaceInfo

/-- Result of `Scene::sampleLight` (out-parameter turned into a field). -/
structure LightChoice where
  light : Light
  pdf : ℚ
  sampler : Sampler

/-- Modelled from the spec: the `Scene` interface (scene.h is not under src/),
spec section 6: light importance sampling and ray intersection. -/
structure Scene where
  sampleLight : Sampler → LightChoice
  intersect : Ray → Option IntersectInfo

/-- The photon-tracing loop body of `PhotonMapping::build` (integrator.h,
`for (int k = 0; k < maxDepth; ++k)`), with the per-walk photon slot
`photons[i]` and the sampler threaded explicitly.  `k` is the bounce index,
`fuel` the number of loop iterations still allowed (`maxDepth - k`).
Each iteration: intersect; on a miss break; on a DIFFUSE hit overwrite the
slot with `Photon(throughput, position, -ray.direction)`; for `k > 0` run
russian roulette (terminate when the next sample is `>=` the survival
probability, else divide the throughput by it); sample the BxDF, multiply the
throughput by `f * |dot(dir, normal)| / pdf_dir`, and continue with the new
ray. -/
def traceLoop (scene : Scene) : Nat → Nat → Ray → Vec3 → Option Photon →
    Sampler → Option Photon × Sampler
  | _, 0, _, _, slot, s => (slot, s)
  | k, fuel + 1, ray, throughput, slot, s =>
    match scene.intersect ray with
    | none => (slot, s)
    | some info =>
      let slot2 := if info.hitPrimitive.getBxDFType = BxDFType.DIFFUSE then
          some { power := throughput, position := info.surfaceInfo.position,
                 wi := Vec3.neg ray.direction }
        else slot
      let rr : Option Vec3 × Sampler :=
        if 0 < k then
          let p := rmin (Vec3.vmax throughput) 1
          let d := Sampler.getNext1D s
          if p ≤ d.1 then (none, d.2) else (some (Vec3.sdiv throughput p), d.2)
        else (some throughput, s)
      match rr with
      | (none, s2) => (slot2, s2)
      | (some t2, s2) =>
        let smp := Primitive.sampleBxDF info.hitPrimitive
          (Vec3.neg ray.direction) info.surfaceInfo s2
        let t3 := Vec3.cmul t2 (Vec3.sdiv
          (Vec3.smul smp.f (rabs (Vec3.dot smp.wi info.surfaceInfo.normal))) smp.pdf)
        traceLoop scene (k + 1) fuel
          { origin := info.surfaceInfo.position, direction := smp.wi }
          t3 slot2 smp.sampler

/-- One full walk of `PhotonMapping::build` (the body of the parallel-for):
sample a light, a point and a direction on it, form the initial throughput
`Le / (light_choose_pdf * light_pos_pdf) * |dot(dir, normal)|`, and run the
bounce loop from bounce index 0 with an empty photon slot. -/
def tracePhotonWalk (scene : Scene) (maxDepth : Nat) (s : Sampler) :
    Option Photon × Sampler :=
  let lc := scene.sampleLight s
  let light_surf := lc.light.samplePointSurf lc.sampler
  let light_pos_pdf := lc.light.samplePointPdf lc.sampler
  let s2 := lc.light.samplePointSampler lc.sampler
  let dir := lc.light.sampleDirectionDir light_surf s2
  let s3 := lc.light.sampleDirectionSampler light_surf s2
  let ray : Ray := { origin := light_surf.position, direction := dir }
  let throughput := Vec3.smul
    (Vec3.sdiv (lc.light.Le light_surf dir) (lc.pdf * light_pos_pdf))
    (rabs (Vec3.dot dir light_surf.normal))
  traceLoop scene 0 maxDepth ray throughput none s3

/-- The constructor parameters of class `PhotonMapping` (C++ `int`s). -/
structure PhotonMappingCfg where
  nPhotons : Int
  nDensityEstimation : Int
  maxDepth : Int
  deriving DecidableEq, Repr

/-- Normal outcome of `PhotonMapping::build`: the photons collected into the
photon map, and the fact that `photonMap.build()` was reached (on every
non-throwing run `built` is unconditionally true). -/
structure BuildResult where
  photons : List Photon
  built : Bool
  deriving DecidableEq, Repr

/-- The exception `build` can raise: with a negative `nPhotons` the first
statement `std::vector<std::optional<Photon>> photons(nPhotons)`
(integrator.h line 37) converts the negative `int` to a huge `size_t` and
throws `std::length_error` before any walk runs and before
`photonMap.build()` is reached. -/
inductive BuildException where
  | lengthError
  deriving DecidableEq, Repr

/-- `PhotonMapping::build` (integrator.h): allocate the per-walk slot vector
(`std::length_error` when `nPhotons` is negative), trace `nPhotons`
independent walks (one sampler stream per walk, per the spec's concurrency
contract), collect each non-empty per-walk slot into the photon map, then
build the map.  The C++ `for (int i = 0; i < nPhotons; ++i)` executes zero
iterations for `nPhotons = 0`.  There is no validation of the configuration
at entry. -/
def PhotonMapping.build (pm : PhotonMappingCfg) (scene : Scene)
    (samplers : Nat → Sampler) : Except BuildException BuildResult :=
  if pm.nPhotons < 0 then Except.error BuildException.lengthError
  else
    let slots : List (Option Photon) := (List.range pm.nPhotons.toNat).map
      (fun i => (tracePhotonWalk scene pm.maxDepth.toNat (samplers i)).1)
    Except.ok { photons := slots.filterMap id, built := true }

/-- `PhotonMapping::integrate` (integrator.h): an unimplemented stub that
returns `Vec3(0)` for every input, whatever the build state. -/
def PhotonMapping.integrate (pm : PhotonMappingCfg) (ray : Ray) (scene : Scene)
    (sampler : Sampler) : Vec3 := ⟨0, 0, 0⟩

/-- The last element of a list when it has one, a default otherwise. -/
def lastOr : List Photon → Option Photon → Option Photon
  | [], d => d
  | p :: ps, _ => lastOr ps (some p)

/-- Observer on the bounce loop: the list of `Photon` records the loop writes
into the per-walk slot, in write order, one per DIFFUSE hit of an executed
iteration.  Mirrors `traceLoop` iteration for iteration. -/
def traceDiffuseHits (scene : Scene) : Nat → Nat → Ray → Vec3 → Sampler →
    List Photon
  | _, 0, _, _, _ => []
  | k, fuel + 1, ray, throughput, s =>
    match scene.intersect ray with
    | none => []
    | some info =>
      let here : List Photon :=
        if info.hitPrimitive.getBxDFType = BxDFType.DIFFUSE then
          [{ power := throughput, position := info.surfaceInfo.position,
             wi := Vec3.neg ray.direction }]
        else []
      let rr : Option Vec3 × Sampler :=
        if 0 < k then
          let p := rmin (Vec3.vmax throughput) 1
          let d := Sampler.getNext1D s
          if p ≤ d.1 then (none, d.2) else (some (Vec3.sdiv throughput p), d.2)
        else (some throughput, s)
      match rr with
      | (none, _) => here
      | (some t2, s2) =>
        let smp := Primitive.sampleBxDF info.hitPrimitive
          (Vec3.neg ray.direction) info.surfaceInfo s2
        let t3 := Vec3.cmul t2 (Vec3.sdiv
          (Vec3.smul smp.f (rabs (Vec3.dot smp.wi info.surfaceInfo.normal))) smp.pdf)
        here ++ traceDiffuseHits scene (k + 1) fuel
          { origin := info.surfaceInfo.position, direction := smp.wi }
          t3 smp.sampler

/-- Observer on a full walk: the diffuse-hit write sequence of
`tracePhotonWalk`. -/
def walkDiffuseHits (scene : Scene) (maxDepth : Nat) (s : Sampler) :
    List Photon :=
  let lc := scene.sampleLight s
  let light_surf := lc.light.samplePointSurf lc.sampler
  let light_pos_pdf := lc.light.samplePointPdf lc.sampler
  let s2 := lc.light.samplePointSampler lc.sampler
  let dir := lc.light.sampleDirectionDir light_surf s2
  let s3 := lc.light.sampleDirectionSampler light_surf s2
  let ray : Ray := { origin := light_surf.position, direction := dir }
  let throughput := Vec3.smul
    (Vec3.sdiv (lc.light.Le light_surf dir) (lc.pdf * light_pos_pdf))
    (rabs (Vec3.dot dir light_surf.normal))
  traceDiffuseHits scene 0 maxDepth ray throughput s3

/-- Observer on the bounce loop: how many loop iterations actually run
(each iteration that performs an intersection test counts once).  Mirrors
`traceLoop` iteration for iteration. -/
def traceBounces (scene : Scene) : Nat → Nat → Ray → Vec3 → Sampler → Nat
  | _, 0, _, _, _ => 0
  | k, fuel + 1, ray, throughput, s =>
    match scene.intersect ray with
    | none => 1
    | some info =>
      let rr : Option Vec3 × Sampler :=
        if 0 < k then
          let p := rmin (Vec3.vmax throughput) 1
          let d := Sampler.getNext1D s
          if p ≤ d.1 then (none, d.2) else (some (Vec3.sdiv throughput p), d.2)
        else (some throughput, s)
      match rr with
      | (none, _) => 1
      | (some t2, s2) =>
        let smp := Primitive.sampleBxDF info.hitPrimitive
          (Vec3.neg ray.direction) info.surfaceInfo s2
        let t3 := Vec3.cmul t2 (Vec3.sdiv
          (Vec3.smul smp.f (rabs (Vec3.dot smp.wi info.surfaceInfo.normal))) smp.pdf)
        1 + traceBounces scene (k + 1) fuel
          { origin := info.surfaceInfo.position, direction := smp.wi }
          t3 smp.sampler

/-- Observer on a full walk: the number of executed bounce iterations of
`tracePhotonWalk`. -/
def walkBounces (scene : Scene) (maxDepth : Nat) (s : Sampler) : Nat :=
  let lc := scene.sampleLight s
  let light_surf := lc.light.samplePointSurf lc.sampler
  let light_pos_pdf := lc.light.samplePointPdf lc.sampler
  let s2 := lc.light.samplePointSampler lc.sampler
  let dir := lc.light.sampleDirectionDir light_surf s2
  let s3 := lc.light.sampleDirectionSampler light_surf s2
  let ray : Ray := { origin := light_surf.position, direction := dir }
  let throughput := Vec3.smul
    (Vec3.sdiv (lc.light.Le light_surf dir) (lc.pdf * light_pos_pdf))
    (rabs (Vec3.dot dir light_surf.normal))
  traceBounces scene 0 maxDepth ray throughput s3

theorem lastOr_append (a b : List Photon) (d : Option Photon) :
    lastOr (a ++ b) d = lastOr b (lastOr a d) := by
  induction a generalizing d with
  | nil => rfl
  | cons p ps ih => simpa [lastOr] using ih (some p)

theorem lastOr_some_ne_none (l : List Photon) (p : Photon) :
    lastOr l (some p) ≠ none := by
  induction l generalizing p with
  | nil => simp [lastOr]
  | cons q qs ih => simpa [lastOr] using ih q

theorem lastOr_eq_none_iff (l : List Photon) :
    lastOr l none = none ↔ l = [] := by
  cases l with
  | nil => simp [lastOr]
  | cons p ps => simp [lastOr, lastOr_some_ne_none]

theorem traceLoop_fst_eq_lastOr (scene : Scene) :
    ∀ fuel k ray t slot s,
      (traceLoop scene k fuel ray t slot s).1 =
        lastOr (traceDiffuseHits scene k fuel ray t s) slot := by
  intro fuel
  induction fuel with
  | zero => intro k ray t slot s; rfl
  | succ fuel ih =>
    intro k ray t slot s
    cases h : scene.intersect ray with
    | none => simp [traceLoop, traceDiffuseHits, h, lastOr]
    | some info =>
      by_cases hd : info.hitPrimitive.getBxDFType = BxDFType.DIFFUSE
      · by_cases hk : 0 < k
        · by_cases hp : rmin (Vec3.vmax t) 1 ≤ (Sampler.getNext1D s).1
          · simp [traceLoop, traceDiffuseHits, h, hd, hk, hp, lastOr]
          · simp [traceLoop, traceDiffuseHits, h, hd, hk, hp, ih,
              lastOr_append, lastOr]
        · simp [traceLoop, traceDiffuseHits, h, hd, hk, ih, lastOr_append,
            lastOr]
      · by_cases hk : 0 < k
        · by_cases hp : rmin (Vec3.vmax t) 1 ≤ (Sampler.getNext1D s).1
          · simp [traceLoop, traceDiffuseHits, h, hd, hk, hp, lastOr]
          · simp [traceLoop, traceDiffuseHits, h, hd, hk, hp, ih,
              lastOr_append, lastOr]
        · simp [traceLoop, traceDiffuseHits, h, hd, hk, ih, lastOr_append,
            lastOr]

theorem traceBounces_le_fuel (scene : Scene) :
    ∀ fuel k ray t s, traceBounces scene k fuel ray t s ≤ fuel := by
  intro fuel
  induction fuel with
  | zero => intro k ray t s; simp [traceBounces]
  | succ fuel ih =>
    intro k ray t s
    cases h : scene.intersect ray with
    | none => simp [traceBounces, h]
    | some info =>
      by_cases hk : 0 < k
      · by_cases hp : rmin (Vec3.vmax t) 1 ≤ (Sampler.getNext1D s).1
        · simp [traceBounces, h, hk, hp]
        · simp only [traceBounces, h, hk, hp, if_true, if_false, ite_true,
            ite_false, eq_self_iff_true, not_false_iff]
          rw [Nat.one_add]
          exact Nat.succ_le_succ (ih _ _ _ _)
      · simp only [traceBounces, h, hk, if_true, if_false, ite_true,
          ite_false, eq_self_iff_true, not_false_iff]
        rw [Nat.one_add]
        exact Nat.succ_le_succ (ih _ _ _ _)

/-- A concrete hit-surface frame: the standard basis, so world and local
coordinates coincide. -/
def demoSurf : SurfaceInfo :=
  { position := ⟨0, 0, 0⟩, normal := ⟨0, 1, 0⟩,
    dpdu := ⟨1, 0, 0⟩, dpdv := ⟨0, 0, 1⟩ }

/-- A concrete diffuse BxDF whose importance sample always returns
`f = (1/2, 1/2, 1/2)`, local direction `(0, 1, 0)` and pdf 1. -/
def demoBxDF : BxDF :=
  { evaluate := fun _ _ => ⟨0, 0, 0⟩,
    sampleDirection := fun _ s =>
      { f := ⟨1/2, 1/2, 1/2⟩, wi := ⟨0, 1, 0⟩, pdf := 1, sampler := s },
    sampleAllDirection := fun _ => [],
    getType := BxDFType.DIFFUSE }

/-- A concrete diffuse primitive. -/
def demoPrim : Primitive := { bxdf := demoBxDF, areaLight := none }

/-- A concrete light: constant radiance `(1, 1, 1)`, its sampled point at the
origin with normal `(0, 1, 0)`, sampled emission direction `(0, 1, 0)`, and
all pdfs equal to 1. -/
def demoLight : Light :=
  { samplePointSurf := fun _ => demoSurf,
    samplePointPdf := fun _ => 1,
    samplePointSampler := fun s => s,
    sampleDirectionDir := fun _ _ => ⟨0, 1, 0⟩,
    sampleDirectionPdf := fun _ _ => 1,
    sampleDirectionSampler := fun _ s => s,
    Le := fun _ _ => ⟨1, 1, 1⟩ }

/-- A concrete scene: one light, and every ray hits the diffuse primitive at
`demoSurf`. -/
def demoScene : Scene :=
  { sampleLight := fun s => { light := demoLight, pdf := 1, sampler := s },
    intersect := fun _ => some { hitPrimitive := demoPrim, surfaceInfo := demoSurf } }

/-- A concrete sampler stream, constantly `3/4`. -/
def demoSampler : Sampler := { seq := fun _ => 3/4, pos := 0 }

/-- A configuration with a non-positive photon budget and a zero
density-estimation count. -/
def demoBadCfg : PhotonMappingCfg :=
  { nPhotons := 0, nDensityEstimation := 0, maxDepth := 100 }

/-- C1 (amended): a walk deposits a photon iff it hits at least one DIFFUSE
surface among its executed bounces, and the deposited photon is the LAST
diffuse-hit snapshot written into the per-walk slot (`photons[i]` is
overwritten on every diffuse hit), not the first. -/
theorem c1_walk_deposits_last_diffuse_hit (scene : Scene) (maxDepth : Nat)
    (s : Sampler) :
    (tracePhotonWalk scene maxDepth s).1 =
      lastOr (walkDiffuseHits scene maxDepth s) none ∧
    ((tracePhotonWalk scene maxDepth s).1 = none ↔
      walkDiffuseHits scene maxDepth s = []) := by
  have h : (tracePhotonWalk scene maxDepth s).1 =
      lastOr (walkDiffuseHits scene maxDepth s) none := by
    unfold tracePhotonWalk walkDiffuseHits
    exact traceLoop_fst_eq_lastOr scene maxDepth 0 _ _ none _
  refine ⟨h, ?_⟩
  rw [h]
  exact lastOr_eq_none_iff _

/-- C1 counterexample: in `demoScene` a walk hits the diffuse surface twice;
the first diffuse hit's snapshot has power `(1, 1, 1)` but the deposited
photon carries the second hit's power `(1/2, 1/2, 1/2)` — the slot is
overwritten, so the photon does not record the FIRST diffuse hit. -/
theorem c1_counterexample :
    (tracePhotonWalk demoScene 100 demoSampler).1 =
      some { power := ⟨1/2, 1/2, 1/2⟩, position := ⟨0, 0, 0⟩, wi := ⟨0, -1, 0⟩ } ∧
    (walkDiffuseHits demoScene 100 demoSampler).head? =
      some { power := ⟨1, 1, 1⟩, position := ⟨0, 0, 0⟩, wi := ⟨0, -1, 0⟩ } ∧
    ({ power := ⟨1/2, 1/2, 1/2⟩, position := ⟨0, 0, 0⟩, wi := ⟨0, -1, 0⟩ } : Photon) ≠
      { power := ⟨1, 1, 1⟩, position := ⟨0, 0, 0⟩, wi := ⟨0, -1, 0⟩ } := by
  refine ⟨?_, ?_, ?_⟩
  · norm_num [tracePhotonWalk, traceLoop, demoScene, demoLight, demoBxDF,
      demoPrim, demoSurf, demoSampler, Sampler.getNext1D, Primitive.sampleBxDF,
      Primitive.getBxDFType, worldToLocal, localToWorld, Vec3.cmul, Vec3.smul,
      Vec3.sdiv, Vec3.neg, Vec3.dot, Vec3.vmax, rmin, rmax, rabs]
  · norm_num [walkDiffuseHits, traceDiffuseHits, demoScene, demoLight, demoBxDF,
      demoPrim, demoSurf, demoSampler, Sampler.getNext1D, Primitive.sampleBxDF,
      Primitive.getBxDFType, worldToLocal, localToWorld, Vec3.cmul, Vec3.smul,
      Vec3.sdiv, Vec3.neg, Vec3.dot, Vec3.vmax, rmin, rmax, rabs]
  · intro hcontra
    have h2 := congrArg (fun p => p.power.x) hcontra
    norm_num at h2

/-- C2 (amended): `build` performs no configuration validation at entry.
With `nPhotons = 0` (and any `nDensityEstimation`, including 0) it executes
zero walks, still runs the photon map's build step, and returns normally with
an empty map instead of reporting a fatal configuration error.  With a
negative `nPhotons` the run is aborted, but only by the incidental
`std::length_error` thrown by the slot-vector allocation (integrator.h line
37) — not by a detected-and-reported configuration error. -/
theorem c2_build_no_validation (pm : PhotonMappingCfg) (scene : Scene)
    (samplers : Nat → Sampler) :
    (pm.nPhotons = 0 →
      PhotonMapping.build pm scene samplers =
        Except.ok { photons := [], built := true }) ∧
    (pm.nPhotons < 0 →
      PhotonMapping.build pm scene samplers =
        Except.error BuildException.lengthError) := by
  constructor
  · intro h
    simp [PhotonMapping.build, h]
  · intro h
    simp [PhotonMapping.build, h]

/-- A configuration with a negative photon budget. -/
def demoNegCfg : PhotonMappingCfg :=
  { nPhotons := -3, nDensityEstimation := 0, maxDepth := 100 }

theorem c2_witness :
    PhotonMapping.build demoBadCfg demoScene (fun _ => demoSampler) =
      Except.ok { photons := [], built := true } ∧
    PhotonMapping.build demoNegCfg demoScene (fun _ => demoSampler) =
      Except.error BuildException.lengthError :=
  ⟨(c2_build_no_validation demoBadCfg demoScene (fun _ => demoSampler)).1 rfl,
   (c2_build_no_validation demoNegCfg demoScene (fun _ => demoSampler)).2
     (by decide)⟩

/-- C2 counterexample: with `nPhotons = 0` and `nDensityEstimation = 0` (both
configuration errors per the claim) `build` is not stopped at entry: it runs
to completion, reaching the photon-map build step (`built = true`), with no
error reported to the caller. -/
theorem c2_counterexample :
    PhotonMapping.build demoBadCfg demoScene (fun _ => demoSampler) =
      Except.ok { photons := [], built := true } := rfl

/-- C4 (amended): `integrate` is an unimplemented stub: it returns the zero
radiance `(0, 0, 0)` for every input, whatever the build state; calling it
before `build` is not detected. -/
theorem c4_integrate_always_zero (pm : PhotonMappingCfg) (ray : Ray)
    (scene : Scene) (s : Sampler) :
    PhotonMapping.integrate pm ray scene s = ⟨0, 0, 0⟩ := rfl

/-- C4 counterexample: on an instance whose `build` was never invoked,
`integrate` silently returns zero radiance instead of reporting a misuse
error. -/
theorem c4_counterexample :
    PhotonMapping.integrate demoBadCfg
      { origin := ⟨0, 0, 0⟩, direction := ⟨0, 1, 0⟩ } demoScene demoSampler =
      ⟨0, 0, 0⟩ := rfl

/-- C8: each walk fills at most one per-walk slot, so whenever `build` runs to
completion the photon map holds at most `nPhotons` photons. -/
theorem c8_build_photon_count_le (pm : PhotonMappingCfg) (scene : Scene)
    (samplers : Nat → Sampler) (res : BuildResult)
    (h : PhotonMapping.build pm scene samplers = Except.ok res) :
    res.photons.length ≤ pm.nPhotons.toNat := by
  unfold PhotonMapping.build at h
  by_cases hneg : pm.nPhotons < 0
  · rw [if_pos hneg] at h
    exact Except.noConfusion h
  · rw [if_neg hneg] at h
    obtain rfl := Except.ok.inj h
    refine le_trans (List.length_filterMap_le _ _) ?_
    simp

theorem c8_witness :
    PhotonMapping.build demoBadCfg demoScene (fun _ => demoSampler) =
      Except.ok { photons := ([] : List Photon), built := true } ∧
    ([] : List Photon).length ≤ demoBadCfg.nPhotons.toNat :=
  ⟨rfl,
   c8_build_photon_count_le demoBadCfg demoScene (fun _ => demoSampler)
     { photons := [], built := true } rfl⟩

/-- C9: every walk executes at most `maxDepth` bounce iterations, and
exhausting the bounce budget is not an error: the loop then simply returns the
photon slot as it stands. -/
theorem c9_walk_bounces_le_maxDepth (scene : Scene) (maxDepth : Nat)
    (s : Sampler) :
    walkBounces scene maxDepth s ≤ maxDepth ∧
    (∀ k ray t slot s2, traceLoop scene k 0 ray t slot s2 = (slot, s2)) :=
  ⟨traceBounces_le_fuel scene maxDepth 0 _ _ _, fun _ _ _ _ _ => rfl⟩

theorem Vec3.sdiv_smul (a : Vec3) (r m : ℚ) :
    Vec3.sdiv (Vec3.smul a r) m = Vec3.smul (Vec3.sdiv a m) r := by
  simp [Vec3.sdiv, Vec3.smul, mul_div_right_comm]

/-- A light identical to `L` except that its direction-sampling pdf output is
replaced by the constant `q`; used to show the tracer never consumes that
pdf. -/
def Light.withDirPdf (L : Light) (q : ℚ) : Light :=
  { L with sampleDirectionPdf := fun _ _ => q }

/-- A scene identical to `scene` except every sampled light has its
direction-sampling pdf replaced by `q`. -/
def Scene.withDirPdf (scene : Scene) (q : ℚ) : Scene :=
  { scene with sampleLight := fun smp =>
      let lc := scene.sampleLight smp
      { lc with light := lc.light.withDirPdf q } }

theorem traceLoop_intersect_congr (sceneA sceneB : Scene)
    (h : sceneA.intersect = sceneB.intersect) :
    ∀ fuel k ray t slot s,
      traceLoop sceneA k fuel ray t slot s = traceLoop sceneB k fuel ray t slot s := by
  intro fuel
  induction fuel with
  | zero => intro k ray t slot s; rfl
  | succ fuel ih =>
    intro k ray t slot s
    cases hB : sceneB.intersect ray with
    | none =>
      have hA : sceneA.intersect ray = none := by rw [h, hB]
      simp [traceLoop, hA, hB]
    | some info =>
      have hA : sceneA.intersect ray = some info := by rw [h, hB]
      by_cases hk : 0 < k
      · by_cases hp : rmin (Vec3.vmax t) 1 ≤ (Sampler.getNext1D s).1
        · simp [traceLoop, hA, hB, hk, hp]
        · simp [traceLoop, hA, hB, hk, hp, ih]
      · simp [traceLoop, hA, hB, hk, ih]

/-- C6: the initial throughput of every walk is
`Le(point, dir) × |cos(dir, normal)| / (lightChoicePdf × positionPdf)`, and
the direction pdf is not divided out: replacing every light's direction pdf by
an arbitrary constant leaves the whole walk unchanged. -/
theorem c6_initial_throughput (scene : Scene) (maxDepth : Nat) (s : Sampler) :
    (tracePhotonWalk scene maxDepth s =
      (let lc := scene.sampleLight s
       let light_surf := lc.light.samplePointSurf lc.sampler
       let light_pos_pdf := lc.light.samplePointPdf lc.sampler
       let s2 := lc.light.samplePointSampler lc.sampler
       let dir := lc.light.sampleDirectionDir light_surf s2
       let s3 := lc.light.sampleDirectionSampler light_surf s2
       traceLoop scene 0 maxDepth
         { origin := light_surf.position, direction := dir }
         (Vec3.sdiv
           (Vec3.smul (lc.light.Le light_surf dir)
             (rabs (Vec3.dot dir light_surf.normal)))
           (lc.pdf * light_pos_pdf))
         none s3)) ∧
    (∀ q : ℚ, tracePhotonWalk (Scene.withDirPdf scene q) maxDepth s =
      tracePhotonWalk scene maxDepth s) := by
  constructor
  · simp only [tracePhotonWalk, Vec3.sdiv_smul]
  · intro q
    unfold tracePhotonWalk
    exact traceLoop_intersect_congr (Scene.withDirPdf scene q) scene rfl
      maxDepth 0 _ _ none _

/-- C5: russian roulette in the bounce loop.  On a hit with bounce index
`k > 0` the survival probability is `min(max(t.r, max(t.g, t.b)), 1)`; the
walk terminates when the fresh sample is `>=` it, otherwise the throughput is
divided componentwise by it before the BxDF step; for `k = 0` no roulette
sample is drawn and the throughput is not divided. -/
theorem c5_russian_roulette (scene : Scene) (k fuel : Nat) (ray : Ray)
    (t : Vec3) (slot : Option Photon) (s : Sampler) (info : IntersectInfo)
    (hit : scene.intersect ray = some info) :
    let slot2 := if info.hitPrimitive.getBxDFType = BxDFType.DIFFUSE then
        some { power := t, position := info.surfaceInfo.position,
               wi := Vec3.neg ray.direction } else slot
    let p := rmin (Vec3.vmax t) 1
    let u := (Sampler.getNext1D s).1
    let s2 := (Sampler.getNext1D s).2
    let smp := Primitive.sampleBxDF info.hitPrimitive (Vec3.neg ray.direction)
      info.surfaceInfo s2
    let smp0 := Primitive.sampleBxDF info.hitPrimitive (Vec3.neg ray.direction)
      info.surfaceInfo s
    (0 < k → p ≤ u →
      traceLoop scene k (fuel + 1) ray t slot s = (slot2, s2)) ∧
    (0 < k → u < p →
      traceLoop scene k (fuel + 1) ray t slot s =
        traceLoop scene (k + 1) fuel
          { origin := info.surfaceInfo.position, direction := smp.wi }
          (Vec3.cmul (Vec3.sdiv t p)
            (Vec3.sdiv
              (Vec3.smul smp.f (rabs (Vec3.dot smp.wi info.surfaceInfo.normal)))
              smp.pdf))
          slot2 smp.sampler) ∧
    (k = 0 →
      traceLoop scene k (fuel + 1) ray t slot s =
        traceLoop scene (k + 1) fuel
          { origin := info.surfaceInfo.position, direction := smp0.wi }
          (Vec3.cmul t
            (Vec3.sdiv
              (Vec3.smul smp0.f (rabs (Vec3.dot smp0.wi info.surfaceInfo.normal)))
              smp0.pdf))
          slot2 smp0.sampler) := by
  refine ⟨fun hk hp => ?_, fun hk hp => ?_, fun hk => ?_⟩
  · simp [traceLoop, hit, hk, hp]
  · simp [traceLoop, hit, hk, not_le.mpr hp]
  · subst hk
    simp [traceLoop, hit]

theorem c5_witness :
    (traceLoop demoScene 1 1 { origin := ⟨0, 0, 0⟩, direction := ⟨0, 1, 0⟩ }
      ⟨1, 1, 1⟩ none demoSampler).1 =
      some { power := ⟨1, 1, 1⟩, position := ⟨0, 0, 0⟩, wi := ⟨0, -1, 0⟩ } := by
  obtain ⟨hA, hB, hC⟩ := c5_russian_roulette demoScene 1 0
    { origin := ⟨0, 0, 0⟩, direction := ⟨0, 1, 0⟩ } ⟨1, 1, 1⟩ none demoSampler
    { hitPrimitive := demoPrim, surfaceInfo := demoSurf } rfl
  have h2 := hB (by norm_num)
    (by norm_num [Sampler.getNext1D, demoSampler, Vec3.vmax, rmin, rmax])
  rw [h2]
  norm_num [traceLoop, Primitive.getBxDFType, demoPrim, demoBxDF, demoSurf,
    Vec3.neg]

theorem rabs_nonneg (a : ℚ) : 0 ≤ rabs a := by
  rw [rabs_eq_abs]
  exact abs_nonneg a

theorem Vec3.nonneg_cmul {a b : Vec3} (ha : a.nonneg) (hb : b.nonneg) :
    (Vec3.cmul a b).nonneg :=
  ⟨mul_nonneg ha.1 hb.1, mul_nonneg ha.2.1 hb.2.1, mul_nonneg ha.2.2 hb.2.2⟩

theorem Vec3.nonneg_sdiv {a : Vec3} {m : ℚ} (ha : a.nonneg) (hm : 0 ≤ m) :
    (Vec3.sdiv a m).nonneg :=
  ⟨div_nonneg ha.1 hm, div_nonneg ha.2.1 hm, div_nonneg ha.2.2 hm⟩

theorem Vec3.nonneg_smul {a : Vec3} {r : ℚ} (ha : a.nonneg) (hr : 0 ≤ r) :
    (Vec3.smul a r).nonneg :=
  ⟨mul_nonneg ha.1 hr, mul_nonneg ha.2.1 hr, mul_nonneg ha.2.2 hr⟩

theorem Vec3.vmax_nonneg {a : Vec3} (ha : a.nonneg) : 0 ≤ a.vmax := by
  rw [Vec3.vmax, rmax_eq_max, rmax_eq_max]
  exact le_trans ha.1 (le_max_left _ _)

theorem survival_nonneg {t : Vec3} (ht : t.nonneg) : 0 ≤ rmin t.vmax 1 := by
  rw [rmin_eq_min]
  exact le_min (Vec3.vmax_nonneg ht) zero_le_one

/-- A BxDF whose importance samples always have componentwise non-negative
BSDF value and strictly positive pdf (the non-degenerate case of the spec). -/
def goodBxDF (b : BxDF) : Prop :=
  ∀ wo s, (b.sampleDirection wo s).f.nonneg ∧ 0 < (b.sampleDirection wo s).pdf

/-- A light with positive position pdf and componentwise non-negative emitted
radiance. -/
def goodLight (L : Light) : Prop :=
  (∀ s, 0 < L.samplePointPdf s) ∧ (∀ si d, (L.Le si d).nonneg)

/-- A scene whose light sampling has positive selection pdf, whose lights are
well behaved and whose intersectable primitives carry well-behaved BxDFs. -/
def goodScene (scene : Scene) : Prop :=
  (∀ s, 0 < (scene.sampleLight s).pdf ∧ goodLight (scene.sampleLight s).light) ∧
  (∀ r info, scene.intersect r = some info → goodBxDF info.hitPrimitive.bxdf)

theorem traceLoop_power_nonneg (scene : Scene)
    (hscene : ∀ r info, scene.intersect r = some info →
      goodBxDF info.hitPrimitive.bxdf) :
    ∀ fuel k ray t slot s, t.nonneg →
      (∀ ph, slot = some ph → ph.power.nonneg) →
      ∀ ph, (traceLoop scene k fuel ray t slot s).1 = some ph →
        ph.power.nonneg := by
  intro fuel
  induction fuel with
  | zero => intro k ray t slot s ht hslot ph hph; exact hslot ph hph
  | succ fuel ih =>
    intro k ray t slot s ht hslot ph hph
    cases hit : scene.intersect ray with
    | none =>
      simp only [traceLoop, hit] at hph
      exact hslot ph hph
    | some info =>
      have hslot2 : ∀ q,
          (if info.hitPrimitive.getBxDFType = BxDFType.DIFFUSE then
            some { power := t, position := info.surfaceInfo.position,
                   wi := Vec3.neg ray.direction }
          else slot) = some q → q.power.nonneg := by
        intro q hq
        by_cases hd : info.hitPrimitive.getBxDFType = BxDFType.DIFFUSE
        · rw [if_pos hd] at hq
          obtain rfl := Option.some.inj hq
          exact ht
        · rw [if_neg hd] at hq
          exact hslot q hq
      have hbx := hscene ray info hit
      by_cases hk : 0 < k
      · by_cases hp : rmin (Vec3.vmax t) 1 ≤ (Sampler.getNext1D s).1
        · simp only [traceLoop, hit, if_pos hk, if_pos hp] at hph
          exact hslot2 ph hph
        · simp only [traceLoop, hit, if_pos hk, if_neg hp] at hph
          refine ih (k + 1) _ _ _ _ ?_ hslot2 ph hph
          refine Vec3.nonneg_cmul (Vec3.nonneg_sdiv ht (survival_nonneg ht)) ?_
          exact Vec3.nonneg_sdiv
            (Vec3.nonneg_smul (hbx _ _).1 (rabs_nonneg _))
            (le_of_lt (hbx _ _).2)
      · simp only [traceLoop, hit, if_neg hk] at hph
        refine ih (k + 1) _ _ _ _ ?_ hslot2 ph hph
        refine Vec3.nonneg_cmul ht ?_
        exact Vec3.nonneg_sdiv
          (Vec3.nonneg_smul (hbx _ _).1 (rabs_nonneg _))
          (le_of_lt (hbx _ _).2)

/-- C3 (amended): the code has NO zero-pdf guard, so NaN/Inf-freedom is not
enforced by the loop itself; what does hold is: for any scene whose light
selection and position pdfs are positive, whose emitted radiance is
componentwise non-negative and whose BxDF samples have non-negative value and
positive pdf, the throughput stays non-negative and every deposited photon's
power components are non-negative. -/
theorem c3_photon_power_nonneg (scene : Scene) (maxDepth : Nat) (s : Sampler)
    (h : goodScene scene) :
    ∀ ph, (tracePhotonWalk scene maxDepth s).1 = some ph → ph.power.nonneg := by
  intro ph hph
  unfold tracePhotonWalk at hph
  refine traceLoop_power_nonneg scene h.2 maxDepth 0 _ _ none _ ?_ ?_ ph hph
  · refine Vec3.nonneg_smul ?_ (rabs_nonneg _)
    refine Vec3.nonneg_sdiv ?_ ?_
    · exact ((h.1 s).2).2 _ _
    · exact le_of_lt (mul_pos (h.1 s).1 (((h.1 s).2).1 _))
  · intro ph2 hph2
    exact Option.noConfusion hph2

/-- A diffuse BxDF whose importance sample is degenerate: `pdf = 0`, with
BSDF value `(1, 1, 1)` and local direction `(1, 0, 0)`. -/
def demoZeroPdfBxDF : BxDF :=
  { evaluate := fun _ _ => ⟨0, 0, 0⟩,
    sampleDirection := fun _ s =>
      { f := ⟨1, 1, 1⟩, wi := ⟨1, 0, 0⟩, pdf := 0, sampler := s },
    sampleAllDirection := fun _ => [],
    getType := BxDFType.DIFFUSE }

/-- A diffuse primitive with the degenerate BxDF. -/
def demoZeroPdfPrim : Primitive := { bxdf := demoZeroPdfBxDF, areaLight := none }

/-- A scene in which every ray hits the degenerate diffuse primitive. -/
def demoZeroPdfScene : Scene :=
  { sampleLight := fun s => { light := demoLight, pdf := 1, sampler := s },
    intersect := fun _ =>
      some { hitPrimitive := demoZeroPdfPrim, surfaceInfo := demoSurf } }

/-- C3 counterexample: the BxDF sample at bounce 0 has `pdf_dir = 0`, yet the
walk does NOT terminate there: the loop updates the throughput anyway
(dividing by zero — here the exact-rational convention `x / 0 = 0` stands in
for the C++ float Inf/NaN) and traces another bounce, whose diffuse hit
overwrites the photon.  The deposited photon's incoming direction is the
negation of the degenerate sampled direction `(1, 0, 0)`, not of the initial
ray direction `(0, 1, 0)` — proof that the walk continued past the zero-pdf
sample instead of terminating. -/
theorem c3_counterexample :
    (demoZeroPdfBxDF.sampleDirection ⟨0, -1, 0⟩ demoSampler).pdf = 0 ∧
    (tracePhotonWalk demoZeroPdfScene 100 demoSampler).1 =
      some { power := ⟨0, 0, 0⟩, position := ⟨0, 0, 0⟩, wi := ⟨-1, 0, 0⟩ } ∧
    ({ power := ⟨0, 0, 0⟩, position := ⟨0, 0, 0⟩, wi := ⟨-1, 0, 0⟩ } : Photon).wi ≠
      Vec3.neg ⟨0, 1, 0⟩ := by
  refine ⟨rfl, ?_, ?_⟩
  · norm_num [tracePhotonWalk, traceLoop, demoZeroPdfScene, demoLight,
      demoZeroPdfBxDF, demoZeroPdfPrim, demoSurf, demoSampler,
      Sampler.getNext1D, Primitive.sampleBxDF, Primitive.getBxDFType,
      worldToLocal, localToWorld, Vec3.cmul, Vec3.smul, Vec3.sdiv, Vec3.neg,
      Vec3.dot, Vec3.vmax, rmin, rmax, rabs]
  · intro hcontra
    have h2 := congrArg (fun v => v.x) hcontra
    norm_num [Vec3.neg] at h2

theorem c3_witness :
    goodScene demoScene ∧ Vec3.nonneg (⟨1/2, 1/2, 1/2⟩ : Vec3) := by
  have hgood : goodScene demoScene := by
    constructor
    · intro s
      refine ⟨one_pos, fun s2 => one_pos, fun si d => ?_⟩
      exact ⟨zero_le_one, zero_le_one, zero_le_one⟩
    · intro r info hinfo
      obtain rfl := Option.some.inj hinfo
      intro wo s2
      exact ⟨⟨by norm_num [demoPrim, demoBxDF], by norm_num [demoPrim, demoBxDF],
        by norm_num [demoPrim, demoBxDF]⟩, one_pos⟩
  refine ⟨hgood, ?_⟩
  exact c3_photon_power_nonneg demoScene 100 demoSampler hgood
    ⟨⟨1/2, 1/2, 1/2⟩, ⟨0, 0, 0⟩, ⟨0, -1, 0⟩⟩
    (by norm_num [tracePhotonWalk, traceLoop, demoScene, demoLight, demoBxDF,
      demoPrim, demoSurf, demoSampler, Sampler.getNext1D, Primitive.sampleBxDF,
      Primitive.getBxDFType, worldToLocal, localToWorld, Vec3.cmul, Vec3.smul,
      Vec3.sdiv, Vec3.neg, Vec3.dot, Vec3.vmax, rmin, rmax, rabs])

theorem Vec3.ext3 {a b : Vec3} (hx : a.x = b.x) (hy : a.y = b.y)
    (hz : a.z = b.z) : a = b := by
  cases a
  cases b
  cases hx
  cases hy
  cases hz
  rfl

/-- The frame `(u, n, w)` is orthonormal: unit basis vectors, pairwise
perpendicular (the spec's valid orthonormal-ish frame `(dpdu, n, dpdv)`). -/
def orthonormalFrame (u n w : Vec3) : Prop :=
  Vec3.dot u u = 1 ∧ Vec3.dot n n = 1 ∧ Vec3.dot w w = 1 ∧
  Vec3.dot u n = 0 ∧ Vec3.dot u w = 0 ∧ Vec3.dot n w = 0

theorem gram_flip (u n w : Vec3) (h : orthonormalFrame u n w) :
    (u.x * u.x + n.x * n.x + w.x * w.x = 1) ∧
    (u.x * u.y + n.x * n.y + w.x * w.y = 0) ∧
    (u.x * u.z + n.x * n.z + w.x * w.z = 0) ∧
    (u.y * u.y + n.y * n.y + w.y * w.y = 1) ∧
    (u.y * u.z + n.y * n.z + w.y * w.z = 0) ∧
    (u.z * u.z + n.z * n.z + w.z * w.z = 1) := by
  obtain ⟨h1, h2, h3, h4, h5, h6⟩ := h
  unfold Vec3.dot at h1 h2 h3 h4 h5 h6
  have hMMT : (!![u.x, u.y, u.z; n.x, n.y, n.z; w.x, w.y, w.z] *
      !![u.x, n.x, w.x; u.y, n.y, w.y; u.z, n.z, w.z] :
      Matrix (Fin 3) (Fin 3) ℚ) = 1 := by
    rw [Matrix.mul_fin_three, Matrix.one_fin_three]
    ext i j
    fin_cases i <;> fin_cases j <;>
      simp [Matrix.cons_val_zero, Matrix.cons_val_one, Matrix.cons_val_two,
        Matrix.head_cons, Matrix.vecHead, Matrix.vecTail] <;>
      linarith
  have hMTM := Matrix.mul_eq_one_comm.mp hMMT
  rw [Matrix.mul_fin_three, Matrix.one_fin_three] at hMTM
  have e00 := congrFun (congrFun hMTM 0) 0
  have e01 := congrFun (congrFun hMTM 0) 1
  have e02 := congrFun (congrFun hMTM 0) 2
  have e11 := congrFun (congrFun hMTM 1) 1
  have e12 := congrFun (congrFun hMTM 1) 2
  have e22 := congrFun (congrFun hMTM 2) 2
  simp [Matrix.cons_val_zero, Matrix.cons_val_one, Matrix.cons_val_two,
    Matrix.head_cons, Matrix.vecHead, Matrix.vecTail] at e00 e01 e02 e11 e12 e22
  refine ⟨by linarith, by linarith, by linarith, by linarith, by linarith,
    by linarith⟩

/-- C7: for every direction `v` and every orthonormal frame `(u, n, w)`,
`localToWorld` and `worldToLocal` are exact inverses of each other in both
composition orders (exact equality over the rationals, hence in particular
within any floating tolerance). -/
theorem c7_frame_round_trip (v u n w : Vec3) (h : orthonormalFrame u n w) :
    localToWorld (worldToLocal v u n w) u n w = v ∧
    worldToLocal (localToWorld v u n w) u n w = v := by
  obtain ⟨g1, g2, g3, g4, g5, g6⟩ := gram_flip u n w h
  obtain ⟨h1, h2, h3, h4, h5, h6⟩ := h
  unfold Vec3.dot at h1 h2 h3 h4 h5 h6
  constructor
  · refine Vec3.ext3 ?_ ?_ ?_ <;>
      simp only [localToWorld, worldToLocal, Vec3.dot]
    · linear_combination v.x * g1 + v.y * g2 + v.z * g3
    · linear_combination v.x * g2 + v.y * g4 + v.z * g5
    · linear_combination v.x * g3 + v.y * g5 + v.z * g6
  · refine Vec3.ext3 ?_ ?_ ?_ <;>
      simp only [localToWorld, worldToLocal, Vec3.dot]
    · linear_combination v.x * h1 + v.y * h4 + v.z * h5
    · linear_combination v.x * h4 + v.y * h2 + v.z * h6
    · linear_combination v.x * h5 + v.y * h6 + v.z * h3

theorem c7_witness :
    orthonormalFrame ⟨1, 0, 0⟩ ⟨0, 1, 0⟩ ⟨0, 0, 1⟩ ∧
    localToWorld (worldToLocal ⟨3, -2, 5⟩ ⟨1, 0, 0⟩ ⟨0, 1, 0⟩ ⟨0, 0, 1⟩)
      ⟨1, 0, 0⟩ ⟨0, 1, 0⟩ ⟨0, 0, 1⟩ = ⟨3, -2, 5⟩ := by
  have hf : orthonormalFrame ⟨1, 0, 0⟩ ⟨0, 1, 0⟩ ⟨0, 0, 1⟩ := by
    refine ⟨?_, ?_, ?_, ?_, ?_, ?_⟩ <;> norm_num [Vec3.dot]
  exact ⟨hf, (c7_frame_round_trip ⟨3, -2, 5⟩ _ _ _ hf).1⟩

/-- C10: `sampleAllBxDF` returns exactly the pairs of the underlying BxDF's
`sampleAllDirection` on the local-frame `wo`: the same number of pairs in the
same order, each weight unchanged, each direction replaced by its
`localToWorld` image. -/
theorem c10_sampleAllBxDF_frame_effect (p : Primitive) (wo : Vec3)
    (si : SurfaceInfo) :
    (Primitive.sampleAllBxDF p wo si).length =
      (p.bxdf.sampleAllDirection
        (worldToLocal wo si.dpdu si.normal si.dpdv)).length ∧
    ∀ i : Nat, i < (p.bxdf.sampleAllDirection
        (worldToLocal wo si.dpdu si.normal si.dpdv)).length →
      (Primitive.sampleAllBxDF p wo si).getD i (⟨0, 0, 0⟩, ⟨0, 0, 0⟩) =
        (localToWorld ((p.bxdf.sampleAllDirection
            (worldToLocal wo si.dpdu si.normal si.dpdv)).getD i
            (⟨0, 0, 0⟩, ⟨0, 0, 0⟩)).1 si.dpdu si.normal si.dpdv,
         ((p.bxdf.sampleAllDirection
            (worldToLocal wo si.dpdu si.normal si.dpdv)).getD i
            (⟨0, 0, 0⟩, ⟨0, 0, 0⟩)).2) := by
  constructor
  · simp [Primitive.sampleAllBxDF]
  · intro i hi
    unfold Primitive.sampleAllBxDF
    simp [List.getD_eq_getElem?_getD, List.getElem?_map,
      List.getElem?_eq_getElem hi]

/-- A BxDF with a discrete two-direction `sampleAllDirection` set. -/
def demoSpecBxDF : BxDF :=
  { evaluate := fun _ _ => ⟨0, 0, 0⟩,
    sampleDirection := fun _ s =>
      { f := ⟨0, 0, 0⟩, wi := ⟨0, 1, 0⟩, pdf := 1, sampler := s },
    sampleAllDirection := fun wo => [(⟨1, 0, 0⟩, ⟨2, 3, 4⟩), (wo, ⟨5, 6, 7⟩)],
    getType := BxDFType.SPECULAR }

/-- A primitive with the discrete BxDF. -/
def demoSpecPrim : Primitive := { bxdf := demoSpecBxDF, areaLight := none }

theorem c10_witness :
    0 < (demoSpecPrim.bxdf.sampleAllDirection
      (worldToLocal ⟨0, 1, 0⟩ demoSurf.dpdu demoSurf.normal demoSurf.dpdv)).length ∧
    (Primitive.sampleAllBxDF demoSpecPrim ⟨0, 1, 0⟩ demoSurf).getD 0
        (⟨0, 0, 0⟩, ⟨0, 0, 0⟩) =
      (localToWorld ((demoSpecPrim.bxdf.sampleAllDirection
          (worldToLocal ⟨0, 1, 0⟩ demoSurf.dpdu demoSurf.normal demoSurf.dpdv)).getD 0
          (⟨0, 0, 0⟩, ⟨0, 0, 0⟩)).1 demoSurf.dpdu demoSurf.normal demoSurf.dpdv,
       ((demoSpecPrim.bxdf.sampleAllDirection
          (worldToLocal ⟨0, 1, 0⟩ demoSurf.dpdu demoSurf.normal demoSurf.dpdv)).getD 0
          (⟨0, 0, 0⟩, ⟨0, 0, 0⟩)).2) := by
  have hlen : 0 < (demoSpecPrim.bxdf.sampleAllDirection
      (worldToLocal ⟨0, 1, 0⟩ demoSurf.dpdu demoSurf.normal demoSurf.dpdv)).length := by
    simp [demoSpecPrim, demoSpecBxDF]
  exact ⟨hlen,
    (c10_sampleAllBxDF_frame_effect demoSpecPrim ⟨0, 1, 0⟩ demoSurf).2 0 hlen⟩
